import Mathlib

/-!
Shallow embedding of `cisco_deviot/thing.py` (gateway-python-sdk):
property typing and defaults, `Property`, `Action`, `Thing`, and the
registration / update / action-dispatch operations, together with theorems
about them.

Modelling conventions:
* Python runtime values that the module manipulates (property values, type
  selectors, argument values) are modelled by the closed type `Value`
  (`None`, `int`, `bool`, `str`).
* Python `==` is modelled by `pyEq`; note that in Python booleans compare
  equal to integers (`False == 0`, `True == 1`).
* Python exceptions are modelled by `PyError`; an operation that can raise
  returns its mutated state together with an `Option PyError`
  (mutations made before the raise persist, as they do on the Python heap).
* Calls to the logging collaborator (`logger.error` / `logger.info`) are
  recorded as structured log events carrying the data the source formats
  into the message; only the severity, count and order of log calls matter
  to the properties proved here, not the exact rendered string.
* The code targets Python 2 (the Cisco DevIoT SDK): `dict.keys()` returns a
  fresh list, so `call_action`'s `for k in args.keys(): del args[k]` idiom
  iterates over a snapshot of the keys while deleting from the dict.
-/

set_option autoImplicit false

namespace CiscoDeviot

/-- Python runtime values handled by the module: `None`, integers, booleans
and strings. -/
inductive Value where
  | none
  | int (n : Int)
  | bool (b : Bool)
  | str (s : String)
  deriving DecidableEq, Repr

/-- Python `==` on `Value`: `None == None` is `True`, numbers compare by
value with `bool` coerced to `int` (`False == 0`, `True == 1`), strings
compare by content, and every other cross-type comparison is `False`. -/
def pyEq : Value → Value → Bool
  | .none, .none => true
  | .int n, .int m => n == m
  | .bool b, .bool c => b == c
  | .bool b, .int m => (if b then (1 : Int) else 0) == m
  | .int n, .bool c => n == (if c then (1 : Int) else 0)
  | .str s, .str t => s == t
  | _, _ => false

/-- `class PropertyType`: the four type-selector constants. In the source
they are plain integer class attributes `INT = 0`, `STRING = 1`, `BOOL = 2`,
`COLOR = 3`. -/
def PropertyType.INT : Value := .int 0

/-- `PropertyType.STRING = 1`. -/
def PropertyType.STRING : Value := .int 1

/-- `PropertyType.BOOL = 2`. -/
def PropertyType.BOOL : Value := .int 2

/-- `PropertyType.COLOR = 3`. -/
def PropertyType.COLOR : Value := .int 3

/-- `default_value_for_type(stype)`: successive `==` comparisons against
`PropertyType.INT`, `PropertyType.BOOL`, `PropertyType.STRING`,
`PropertyType.COLOR`, falling through to `None`. -/
def default_value_for_type (stype : Value) : Value :=
  if pyEq stype PropertyType.INT then .int 0
  else if pyEq stype PropertyType.BOOL then .bool false
  else if pyEq stype PropertyType.STRING then .str ""
  else if pyEq stype PropertyType.COLOR then .str "FFFFFF"
  else .none

/-- `class Property`: a named, typed state field.  The `type`, `value`,
`range`, `unit` and `description` slots hold arbitrary Python values. -/
structure Property where
  name : String
  type : Value
  value : Value
  range : Value
  unit : Value
  description : Value
  deriving DecidableEq, Repr

/-- `Property.__init__(self, name, type=PropertyType.INT, value=None,
range=None, unit=None, description=None)`: when `value is None` it is
replaced by `default_value_for_type(type)` (an `is None` identity test, so
it matches exactly the `Value.none` constructor). -/
def Property.init (name : String) (type : Value := PropertyType.INT)
    (value : Value := .none) (range : Value := .none) (unit : Value := .none)
    (description : Value := .none) : Property :=
  { name := name
    type := type
    value := match value with
      | .none => default_value_for_type type
      | v => v
    range := range
    unit := unit
    description := description }

/-- `class Action`: a named operation.  `need_payload` is the boolean
instance attribute set by `__init__` (`self.need_payload = False`); it
shadows the class method of the same name (see
`Action.call_need_payload`). -/
structure Action where
  name : String
  parameters : List Property
  need_payload : Bool
  deriving DecidableEq, Repr

/-- `Action.__init__(self, name, **kwargs)`: each keyword `k = v` becomes
`Property(k, v)` — the kwarg value is passed positionally into the `type`
slot.  `kwargs` is modelled as the insertion-ordered list of keyword/value
pairs. -/
def Action.init (name : String) (kwargs : List (String × Value)) : Action :=
  { name := name
    parameters := kwargs.map fun kv => Property.init kv.1 kv.2
    need_payload := false }

/-- `Action.add_parameter(self, action_parameter)`: append and return
`self`. -/
def Action.add_parameter (a : Action) (action_parameter : Property) : Action :=
  { a with parameters := a.parameters ++ [action_parameter] }

/-- A Python attribute value as seen by attribute lookup on an `Action`:
either a plain boolean (the instance attribute) or the class method. -/
inductive PyAttr where
  | boolAttr (b : Bool)
  | methodAttr
  deriving DecidableEq, Repr

/-- Python attribute lookup for `a.need_payload`: the instance dict entry
written by `__init__` always exists, and instance attributes shadow class
attributes, so the lookup yields the boolean field, never the same-named
class method `need_payload(self, payload)`. -/
def Action.lookup_need_payload (a : Action) : PyAttr :=
  .boolAttr a.need_payload

/-- Python exceptions raised by the module's code paths. -/
inductive PyError where
  | attributeError
  | indexError
  | typeError
  deriving DecidableEq, Repr

/-- The call `a.need_payload(payload)` as executed by Python: look up the
attribute `need_payload` on `a`; a bool is not callable, so the boolean
branch raises `TypeError`.  (Only if the method were reachable would the
source's setter body `self.need_payload = payload; return self` run.) -/
def Action.call_need_payload (a : Action) (payload : Bool) : Except PyError Action :=
  match a.lookup_need_payload with
  | .boolAttr _ => .error .typeError
  | .methodAttr => .ok { a with need_payload := payload }

/-- An element of `Thing.properties`.  `add_property` appends its raw
argument, so the collection is heterogeneous: `pval v` is any non-`Property`
Python value (e.g. a registration string or an invalid item), `pprop p` is a
`Property` instance. -/
inductive PyObj where
  | pval (v : Value)
  | pprop (p : Property)
  deriving DecidableEq, Repr

/-- Python attribute access `obj.name`: only `Property` instances carry a
`name` attribute; `str`, `int`, `bool` and `None` raise `AttributeError`. -/
def PyObj.name_attr : PyObj → Except PyError String
  | .pprop p => .ok p.name
  | .pval _ => .error .attributeError

/-- A call to the logging collaborator, identified by which `logger.error`
format string the source uses and the datum formatted into it. -/
inductive LogEvent where
  | errorInvalidProperty (item : PyObj)
  | errorDuplicateProperty (pname : String)
  | errorInvalidAction (item : PyObj)
  deriving DecidableEq, Repr

/-- `class Thing`: identity plus the property / action collections and the
options bag, exactly the fields `__init__` sets. -/
structure Thing where
  id : String
  name : String
  kind : String
  properties : List PyObj
  actions : List Action
  options : List (String × Value)
  deriving DecidableEq, Repr

/-- The list comprehension `[property.name for property in self.properties]`:
built left to right, raising `AttributeError` at the first element with no
`name` attribute. -/
def names_of : List PyObj → Except PyError (List String)
  | [] => .ok []
  | e :: rest =>
    match e.name_attr with
    | .error err => .error err
    | .ok n =>
      match names_of rest with
      | .error err => .error err
      | .ok ns => .ok (n :: ns)

/-- `Thing._has_property(self, prop)`: build the full name list and then
test membership of `prop` in it. -/
def Thing.has_property (props : List PyObj) (prop : String) : Except PyError Bool :=
  match names_of props with
  | .error err => .error err
  | .ok names => .ok (decide (prop ∈ names))

/-- Result of a registration call: the new contents of `self.properties`,
the log events emitted, and the exception propagated, if any (mutations
made before the raise persist). -/
structure RegResult where
  properties : List PyObj
  logs : List LogEvent
  error : Option PyError
  deriving DecidableEq, Repr

/-- The loop body of `Thing.add_property`.  For each item: a `str` is
wrapped as `Property(item)` and a `Property` is taken as is (into the local
`added_property`); anything else logs an error and `continue`s.  A
duplicate name logs an error and `break`s.  Otherwise the source appends
the ORIGINAL loop variable `property` — not `added_property` — so a string
item is stored as a raw string. -/
def add_property_loop (props : List PyObj) (logs : List LogEvent) :
    List PyObj → RegResult
  | [] => ⟨props, logs, Option.none⟩
  | item :: rest =>
    let added : Option Property :=
      match item with
      | .pval (.str s) => some (Property.init s)
      | .pprop p => some p
      | _ => Option.none
    match added with
    | Option.none =>
      add_property_loop props (logs ++ [.errorInvalidProperty item]) rest
    | some added_property =>
      match Thing.has_property props added_property.name with
      | .error e => ⟨props, logs, some e⟩
      | .ok true => ⟨props, logs ++ [.errorDuplicateProperty added_property.name], Option.none⟩
      | .ok false => add_property_loop (props ++ [item]) logs rest

/-- `Thing.add_property(self, *thing_properties)`: run the loop over the
variadic items and return `self` (with its mutated property list), the log
events, and the propagated exception, if any. -/
def Thing.add_property (t : Thing) (thing_properties : List PyObj) :
    Thing × List LogEvent × Option PyError :=
  let r := add_property_loop t.properties [] thing_properties
  ({ t with properties := r.properties }, r.logs, r.error)

/-- The inner scan of `Thing.update_property` for one keyword `pname = v`:
walk `self.properties` in order; reading `existing_prop.name` on a
non-`Property` element raises `AttributeError`; on the first name match,
assign `value` and `break`. -/
def update_scan (pname : String) (v : Value) : List PyObj → Except PyError (List PyObj)
  | [] => .ok []
  | e :: rest =>
    match e with
    | .pprop p =>
      if pname = p.name then .ok (.pprop { p with value := v } :: rest)
      else (update_scan pname v rest).map fun r => .pprop p :: r
    | .pval _ => .error .attributeError

/-- `Thing.update_property(self, **new_properties)`: one scan per keyword,
in keyword order; an exception aborts the remaining keywords but keeps the
updates already made. -/
def update_property_loop (props : List PyObj) :
    List (String × Value) → List PyObj × Option PyError
  | [] => (props, Option.none)
  | kv :: rest =>
    match update_scan kv.1 kv.2 props with
    | .ok props2 => update_property_loop props2 rest
    | .error e => (props, some e)

/-- `Thing.update_property` packaged on the `Thing`: returns `self` with
the mutated property list and the propagated exception, if any.  The method
contains no call to the logging collaborator. -/
def Thing.update_property (t : Thing) (new_properties : List (String × Value)) :
    Thing × Option PyError :=
  let r := update_property_loop t.properties new_properties
  ({ t with properties := r.1 }, r.2)

/-- Observable steps of `call_action`: the invocation of the resolved
implementation member with its keyword arguments, and the `logger.info`
call (which formats `str(self)`, the action name and the final argument
dict). -/
inductive Event where
  | invoke (method : String) (kwargs : List (String × Value))
  | logInfo (method : String) (args : List (String × Value))
  deriving DecidableEq, Repr

/-- Result of `call_action`: the contents of the caller's `args` dict after
the call (the source mutates it in place), the observable events in order,
and the propagated exception, if any. -/
structure CallResult where
  argsAfter : List (String × Value)
  events : List Event
  error : Option PyError
  deriving DecidableEq, Repr

/-- The accepted-argument-name set of `call_action`:
`valid_args = {p.name: True for p in action_model.parameters}`, plus
`"payload"` when `action_model.need_payload` is truthy.  Only membership in
the dict is ever used, so it is modelled as the name list. -/
def valid_arg_names (a : Action) : List String :=
  a.parameters.map Property.name ++ (if a.need_payload then ["payload"] else [])

/-- `del args[k]` on the dict modelled as an association list: drop the
entry with key `k` (keys of a Python dict are unique). -/
def del_key (k : String) (d : List (String × Value)) : List (String × Value) :=
  d.filter fun kv => kv.1 ≠ k

/-- `for k in args.keys(): if k not in valid_args: del args[k]` —
`args.keys()` is a snapshot list of the keys (Python 2), so the loop runs
over the original keys while the dict shrinks. -/
def filter_args (keys : List String) (valid : List String)
    (d : List (String × Value)) : List (String × Value) :=
  match keys with
  | [] => d
  | k :: rest =>
    if k ∈ valid then filter_args rest valid d
    else filter_args rest valid (del_key k d)

/-- `Thing.call_action(self, method, args)`.  `impls` is the set of
attribute names reachable on the concrete instance by
`getattr(self, method)` (the implementation members the device subclass
defines); a failed lookup raises `AttributeError`.  Then
`matches = list(a for a in self.actions if a.name == method)` and
`matches[0]` raises `IndexError` when no declared Action matches.  The
argument dict is filtered in place, the implementation member is invoked
with the remaining keyword arguments, and one `logger.info` entry is
emitted after the invocation returns. -/
def Thing.call_action (impls : List String) (t : Thing) (method : String)
    (args : List (String × Value)) : CallResult :=
  if method ∈ impls then
    match t.actions.filter (fun a => a.name == method) with
    | [] => ⟨args, [], some .indexError⟩
    | action_model :: _ =>
      let valid := valid_arg_names action_model
      let args2 := filter_args (args.map Prod.fst) valid args
      ⟨args2, [.invoke method args2, .logInfo method args2], Option.none⟩
  else ⟨args, [], some .attributeError⟩

/-- The registry name an element of the property collection answers to: a
`Property` entry carries its `name` field; a raw string entry (what
`add_property` actually stores for a string argument) denotes the name the
wrapped `Property(property)` would have carried; other values carry no
name. -/
def entry_name : PyObj → Option String
  | .pprop p => some p.name
  | .pval (.str s) => some s
  | .pval _ => Option.none

/-- C7 counterexample: the claim says `default_value_for_type` returns the
no-default sentinel for every input other than the four `PropertyType`
selector values, but the Python boolean `True` compares equal to `1`
(`PropertyType.STRING`), so the function returns `""`, not `None`. -/
theorem c7_counterexample :
    default_value_for_type (Value.bool true) = Value.str "" ∧
    Value.str "" ≠ Value.none := by
  exact ⟨rfl, by decide⟩

/-- C7 (amended): `default_value_for_type` maps the four selector values
`INT`, `BOOL`, `STRING`, `COLOR` to `0`, `False`, `""`, `"FFFFFF"`
respectively, and returns the `None` sentinel for every other input that
does not compare Python-equal to one of them; the booleans are the
exception, since `False == 0` and `True == 1`, so `False` yields `0` and
`True` yields `""`. -/
theorem c7_default_value_characterization :
    default_value_for_type PropertyType.INT = Value.int 0 ∧
    default_value_for_type PropertyType.BOOL = Value.bool false ∧
    default_value_for_type PropertyType.STRING = Value.str "" ∧
    default_value_for_type PropertyType.COLOR = Value.str "FFFFFF" ∧
    default_value_for_type Value.none = Value.none ∧
    default_value_for_type (Value.bool false) = Value.int 0 ∧
    default_value_for_type (Value.bool true) = Value.str "" ∧
    (∀ s : String, default_value_for_type (Value.str s) = Value.none) ∧
    (∀ n : Int, n ≠ 0 → n ≠ 1 → n ≠ 2 → n ≠ 3 →
      default_value_for_type (Value.int n) = Value.none) := by
  refine ⟨rfl, rfl, rfl, rfl, rfl, rfl, rfl, fun s => rfl, fun n h0 h1 h2 h3 => ?_⟩
  simp [default_value_for_type, pyEq, PropertyType.INT, PropertyType.BOOL,
    PropertyType.STRING, PropertyType.COLOR, h0, h1, h2, h3]

/-- Witness for C7 (amended) at the concrete out-of-range selector `7`. -/
theorem c7_default_value_characterization_witness :
    default_value_for_type (Value.int 7) = Value.none :=
  c7_default_value_characterization.2.2.2.2.2.2.2.2 7 (by decide) (by decide)
    (by decide) (by decide)

/-- C8: constructing a `Property` without an explicit value (the `None`
default — `None` is the omission sentinel, indistinguishable from an
omitted argument) stores `default_value_for_type` of the declared type,
and constructing with any non-omitted value stores that value verbatim,
falsy values included. -/
theorem c8_property_value_defaulting :
    ∀ (nm : String) (ty rg un de v : Value),
      (Property.init nm ty Value.none rg un de).value = default_value_for_type ty ∧
      (v ≠ Value.none → (Property.init nm ty v rg un de).value = v) := by
  intro nm ty rg un de v
  refine ⟨rfl, fun hv => ?_⟩
  cases v with
  | none => exact absurd rfl hv
  | int n => rfl
  | bool b => rfl
  | str s => rfl

/-- Witness for C8 at the concrete falsy value `0`. -/
theorem c8_property_value_defaulting_witness :
    (Property.init "x" PropertyType.INT Value.none Value.none Value.none
        Value.none).value = default_value_for_type PropertyType.INT ∧
    (Property.init "x" PropertyType.INT (Value.int 0) Value.none Value.none
        Value.none).value = Value.int 0 :=
  ⟨(c8_property_value_defaulting "x" PropertyType.INT Value.none Value.none
      Value.none (Value.int 0)).1,
    (c8_property_value_defaulting "x" PropertyType.INT Value.none Value.none
      Value.none (Value.int 0)).2 (by decide)⟩

/-- C5: every keyword `k = t` passed to the `Action` convenience
constructor yields a parameter `Property` named `k` whose `type` slot is
`t` (the kwarg value is consumed as the type selector, never stored as a
default value) and whose `value` slot is `default_value_for_type t`. -/
theorem c5_action_kwarg_is_type_selector :
    ∀ (n : String) (kwargs : List (String × Value)) (k : String) (ty : Value),
      (k, ty) ∈ kwargs →
      ∃ p ∈ (Action.init n kwargs).parameters,
        p.name = k ∧ p.type = ty ∧ p.value = default_value_for_type ty := by
  intro n kwargs k ty hmem
  exact ⟨Property.init k ty, List.mem_map_of_mem _ hmem, rfl, rfl, rfl⟩

/-- Witness for C5 at `Action("setColor", color=PropertyType.COLOR)`. -/
theorem c5_action_kwarg_is_type_selector_witness :
    ∃ p ∈ (Action.init "setColor" [("color", PropertyType.COLOR)]).parameters,
      p.name = "color" ∧ p.type = PropertyType.COLOR ∧
      p.value = default_value_for_type PropertyType.COLOR :=
  c5_action_kwarg_is_type_selector "setColor" [("color", PropertyType.COLOR)]
    "color" PropertyType.COLOR (by decide)

/-- C6 evaluation: `a.need_payload(True)` raises `TypeError` for every
`Action`, because the boolean instance attribute written by `__init__`
shadows the same-named setter method, so attribute lookup yields a
non-callable `bool`.  The builder-style setter described by the spec is
unreachable. -/
theorem c6_need_payload_setter_raises :
    Action.call_need_payload (Action.init "reboot" []) true =
      Except.error PyError.typeError := rfl

/-- C2 evaluation: on a `Thing` with no properties, `add_property("temp")`
stores the RAW STRING `"temp"` (the source appends the loop variable, not
the wrapped `Property`), emitting no log; the second `add_property("temp")`
then raises `AttributeError` inside `_has_property` (a `str` has no `name`
attribute) without logging the duplicate-name error, and registers
nothing. -/
theorem c2_duplicate_add_property_raises :
    Thing.add_property ⟨"t1", "sensor", "thing", [], [], []⟩
        [PyObj.pval (Value.str "temp")] =
      (⟨"t1", "sensor", "thing", [PyObj.pval (Value.str "temp")], [], []⟩,
        [], Option.none) ∧
    Thing.add_property
        ⟨"t1", "sensor", "thing", [PyObj.pval (Value.str "temp")], [], []⟩
        [PyObj.pval (Value.str "temp")] =
      (⟨"t1", "sensor", "thing", [PyObj.pval (Value.str "temp")], [], []⟩,
        [], some PyError.attributeError) := by
  constructor <;> rfl

/-- C3: with Property entries named `a`, `b`, `c` already registered,
`add_property(42, "d")` logs an error for the invalid item `42`, skips it,
continues, and still adds `"d"` (stored as the raw registration string, the
original loop variable); no exception propagates, and the final collection
consists of entries for exactly the names `a`, `b`, `c`, `d`. -/
theorem c3_invalid_item_skipped :
    ∀ (pa pb pc : Property) (t : Thing),
      pa.name = "a" → pb.name = "b" → pc.name = "c" →
      t.properties = [PyObj.pprop pa, PyObj.pprop pb, PyObj.pprop pc] →
      Thing.add_property t [PyObj.pval (Value.int 42), PyObj.pval (Value.str "d")] =
        ({ t with properties := [PyObj.pprop pa, PyObj.pprop pb, PyObj.pprop pc,
              PyObj.pval (Value.str "d")] },
          [LogEvent.errorInvalidProperty (PyObj.pval (Value.int 42))],
          Option.none) ∧
      [PyObj.pprop pa, PyObj.pprop pb, PyObj.pprop pc,
          PyObj.pval (Value.str "d")].map entry_name =
        [some "a", some "b", some "c", some "d"] := by
  intro pa pb pc t ha hb hc hprops
  constructor
  · simp [Thing.add_property, add_property_loop, Thing.has_property, names_of,
      PyObj.name_attr, ha, hb, hc, hprops, Property.init]
  · simp [entry_name, ha, hb, hc]

/-- Witness for C3 on a concrete three-property `Thing`. -/
theorem c3_invalid_item_skipped_witness :
    Thing.add_property
        ⟨"t1", "s", "thing",
          [PyObj.pprop (Property.init "a"), PyObj.pprop (Property.init "b"),
            PyObj.pprop (Property.init "c")], [], []⟩
        [PyObj.pval (Value.int 42), PyObj.pval (Value.str "d")] =
      (⟨"t1", "s", "thing",
          [PyObj.pprop (Property.init "a"), PyObj.pprop (Property.init "b"),
            PyObj.pprop (Property.init "c"), PyObj.pval (Value.str "d")], [], []⟩,
        [LogEvent.errorInvalidProperty (PyObj.pval (Value.int 42))],
        Option.none) ∧
    [PyObj.pprop (Property.init "a"), PyObj.pprop (Property.init "b"),
        PyObj.pprop (Property.init "c"), PyObj.pval (Value.str "d")].map entry_name =
      [some "a", some "b", some "c", some "d"] :=
  c3_invalid_item_skipped (Property.init "a") (Property.init "b")
    (Property.init "c") _ rfl rfl rfl rfl

/-- C4: when no registered `Action` is named `"unknown"`,
`call_action("unknown", {})` propagates a lookup error — `AttributeError`
from `getattr` or `IndexError` from `matches[0]` — and neither invokes an
implementation nor emits the success log. -/
theorem c4_unknown_action_lookup_fails :
    ∀ (impls : List String) (t : Thing),
      (∀ a ∈ t.actions, a.name ≠ "unknown") →
      (Thing.call_action impls t "unknown" []).events = [] ∧
      ((Thing.call_action impls t "unknown" []).error = some PyError.attributeError ∨
        (Thing.call_action impls t "unknown" []).error = some PyError.indexError) := by
  intro impls t h
  have hfilter : t.actions.filter (fun a => a.name == "unknown") = [] := by
    rw [List.filter_eq_nil_iff]
    intro a ha
    simpa using h a ha
  by_cases hm : "unknown" ∈ impls
  · refine ⟨?_, Or.inr ?_⟩ <;> simp [Thing.call_action, hm, hfilter]
  · refine ⟨?_, Or.inl ?_⟩ <;> simp [Thing.call_action, hm]

/-- Witness for C4 on a concrete `Thing` with one unrelated action. -/
theorem c4_unknown_action_lookup_fails_witness :
    (Thing.call_action []
        ⟨"t1", "s", "thing", [], [Action.init "setColor" []], []⟩
        "unknown" []).events = [] ∧
    ((Thing.call_action []
        ⟨"t1", "s", "thing", [], [Action.init "setColor" []], []⟩
        "unknown" []).error = some PyError.attributeError ∨
      (Thing.call_action []
        ⟨"t1", "s", "thing", [], [Action.init "setColor" []], []⟩
        "unknown" []).error = some PyError.indexError) :=
  c4_unknown_action_lookup_fails [] _ (by decide)

/-- `update_property` for one keyword whose scan succeeds: `self` keeps its
identity fields and gets the scanned property list. -/
theorem update_property_single (t : Thing) (nm : String) (v : Value)
    (props2 : List PyObj) (h : update_scan nm v t.properties = .ok props2) :
    Thing.update_property t [(nm, v)] =
      ({ t with properties := props2 }, Option.none) := by
  simp [Thing.update_property, update_property_loop, h]

/-- The scan of `update_property` hits the first property named `nm`:
everything before it is unchanged, its `value` is assigned, and the tail is
never visited. -/
theorem update_scan_hit (v : Value) (nm : String) :
    ∀ (l₁ : List Property) (p : Property) (l₂ : List Property),
      p.name = nm → nm ∉ l₁.map Property.name →
      update_scan nm v ((l₁ ++ p :: l₂).map PyObj.pprop) =
        .ok ((l₁ ++ { p with value := v } :: l₂).map PyObj.pprop) := by
  intro l₁
  induction l₁ with
  | nil =>
    intro p l₂ hp _
    simp [update_scan, hp]
  | cons q l₁ ih =>
    intro p l₂ hp hnm
    have hq : ¬nm = q.name := by
      intro hcon
      exact hnm (by simp [hcon])
    have hrest : nm ∉ l₁.map Property.name := by
      intro hcon
      exact hnm (by simp [hcon])
    have ihh := ih p l₂ hp hrest
    simp only [List.map_cons, List.map_append] at ihh
    simp [update_scan, hq, ihh, Except.map]

/-- The scan of `update_property` over all-`Property` entries with no
matching name changes nothing and raises nothing. -/
theorem update_scan_miss (v : Value) (nm : String) :
    ∀ (l : List Property), nm ∉ l.map Property.name →
      update_scan nm v (l.map PyObj.pprop) = .ok (l.map PyObj.pprop) := by
  intro l
  induction l with
  | nil => intro _; rfl
  | cons q l ih =>
    intro hnm
    have hq : ¬nm = q.name := by
      intro hcon
      exact hnm (by simp [hcon])
    have hrest : nm ∉ l.map Property.name := by
      intro hcon
      exact hnm (by simp [hcon])
    simp [update_scan, hq, ih hrest, Except.map]

/-- C9: on a `Thing` whose property collection is Property entries among
which `"x"` occurs (first at the split point) and `"y"` occurs,
`update_property(x=10)` assigns `10` to the first property named `"x"` and
leaves every other entry — names, types, order and length — unchanged;
`update_property(z=1)` for the unregistered name `"z"` changes nothing and
raises nothing (and the method body contains no logging call at all). -/
theorem c9_update_property_frame :
    ∀ (t : Thing) (l₁ l₂ : List Property) (p : Property),
      t.properties = (l₁ ++ p :: l₂).map PyObj.pprop →
      p.name = "x" →
      "x" ∉ l₁.map Property.name →
      "y" ∈ (l₁ ++ p :: l₂).map Property.name →
      "z" ∉ (l₁ ++ p :: l₂).map Property.name →
      Thing.update_property t [("x", Value.int 10)] =
        ({ t with properties :=
            (l₁ ++ { p with value := Value.int 10 } :: l₂).map PyObj.pprop },
          Option.none) ∧
      Thing.update_property t [("z", Value.int 1)] = (t, Option.none) := by
  intro t l₁ l₂ p hprops hp hx _hy hz
  constructor
  · exact update_property_single t "x" (Value.int 10) _
      (by rw [hprops]; exact update_scan_hit (Value.int 10) "x" l₁ p l₂ hp hx)
  · rw [update_property_single t "z" (Value.int 1) t.properties
      (by rw [hprops]; exact hprops ▸ update_scan_miss (Value.int 1) "z" (l₁ ++ p :: l₂) hz)]

/-- Witness for C9 on a concrete two-property `Thing`. -/
theorem c9_update_property_frame_witness :
    Thing.update_property
        ⟨"t1", "s", "thing",
          [PyObj.pprop (Property.init "x" PropertyType.INT (Value.int 5)),
            PyObj.pprop (Property.init "y" PropertyType.STRING (Value.str "red"))],
          [], []⟩ [("x", Value.int 10)] =
      (⟨"t1", "s", "thing",
          [PyObj.pprop (Property.mk "x" PropertyType.INT (Value.int 10)
              Value.none Value.none Value.none),
            PyObj.pprop (Property.init "y" PropertyType.STRING (Value.str "red"))],
          [], []⟩, Option.none) ∧
    Thing.update_property
        ⟨"t1", "s", "thing",
          [PyObj.pprop (Property.init "x" PropertyType.INT (Value.int 5)),
            PyObj.pprop (Property.init "y" PropertyType.STRING (Value.str "red"))],
          [], []⟩ [("z", Value.int 1)] =
      (⟨"t1", "s", "thing",
          [PyObj.pprop (Property.init "x" PropertyType.INT (Value.int 5)),
            PyObj.pprop (Property.init "y" PropertyType.STRING (Value.str "red"))],
          [], []⟩, Option.none) :=
  c9_update_property_frame _ []
    [Property.init "y" PropertyType.STRING (Value.str "red")]
    (Property.init "x" PropertyType.INT (Value.int 5))
    rfl rfl (by decide) (by decide) (by decide)

/-- `matches[0]` exists exactly when `find?` succeeds: the first action
satisfying the predicate heads the filtered list. -/
theorem filter_cons_of_found {α : Type} (p : α → Bool) :
    ∀ (l : List α) (a : α), l.find? p = some a → ∃ tl, l.filter p = a :: tl := by
  intro l
  induction l with
  | nil => intro a h; cases h
  | cons b l ih =>
    intro a h
    by_cases hb : p b
    · rw [List.find?_cons_of_pos l hb] at h
      injection h with h
      subst h
      exact ⟨l.filter p, List.filter_cons_of_pos hb⟩
    · rw [List.find?_cons_of_neg l hb] at h
      obtain ⟨tl, htl⟩ := ih a h
      exact ⟨tl, by rw [List.filter_cons_of_neg hb, htl]⟩

/-- The deletion loop of `call_action`, run over an arbitrary key snapshot:
an entry survives when its key is accepted or was never in the snapshot. -/
theorem filter_args_eq (valid : List String) :
    ∀ (keys : List String) (d : List (String × Value)),
      filter_args keys valid d =
        d.filter fun kv => decide (kv.1 ∈ valid) || !decide (kv.1 ∈ keys) := by
  intro keys
  induction keys with
  | nil =>
    intro d
    simp [filter_args]
  | cons k rest ih =>
    intro d
    by_cases hk : k ∈ valid
    · rw [filter_args, if_pos hk, ih]
      apply List.filter_congr
      intro kv _
      by_cases h1 : kv.1 ∈ valid
      · simp [h1]
      · have h2 : ¬kv.1 = k := fun hcon => h1 (hcon ▸ hk)
        simp [h1, h2]
    · rw [filter_args, if_neg hk, ih, del_key, List.filter_filter]
      apply List.filter_congr
      intro kv _
      by_cases h1 : kv.1 = k
      · have h2 : kv.1 ∉ valid := h1 ▸ hk
        simp [h1, h2, hk]
      · by_cases h2 : kv.1 ∈ valid <;> simp [h1, h2]

/-- The deletion loop over the snapshot of the dict's own keys keeps
exactly the entries whose key is accepted. -/
theorem filter_args_snapshot (valid : List String) (d : List (String × Value)) :
    filter_args (d.map Prod.fst) valid d =
      d.filter fun kv => decide (kv.1 ∈ valid) := by
  rw [filter_args_eq]
  apply List.filter_congr
  intro kv hkv
  have hm : kv.1 ∈ d.map Prod.fst := List.mem_map_of_mem _ hkv
  simp [hm]

/-- C1: on any `Thing` whose first `Action` named `"setColor"` declares the
single parameter `"color"` and whose instance reaches an implementation
member `setColor`, `call_action("setColor", {"color": "00FF00", "extra": 1})`
invokes the implementation with exactly `color="00FF00"` (the unaccepted
key `"extra"` is deleted without any report) and then emits exactly one
informational log entry, after the invocation. -/
theorem c1_setcolor_dispatch :
    ∀ (impls : List String) (t : Thing) (a : Action),
      "setColor" ∈ impls →
      t.actions.find? (fun a0 => a0.name == "setColor") = some a →
      a.parameters.map Property.name = ["color"] →
      Thing.call_action impls t "setColor"
          [("color", Value.str "00FF00"), ("extra", Value.int 1)] =
        ⟨[("color", Value.str "00FF00")],
          [Event.invoke "setColor" [("color", Value.str "00FF00")],
            Event.logInfo "setColor" [("color", Value.str "00FF00")]],
          Option.none⟩ := by
  intro impls t a hm hfind hparams
  obtain ⟨tl, htl⟩ :=
    filter_cons_of_found (fun a0 => a0.name == "setColor") t.actions a hfind
  have hvalid : valid_arg_names a =
      "color" :: (if a.need_payload then ["payload"] else []) := by
    simp [valid_arg_names, hparams]
  cases hnp : a.need_payload with
  | false =>
    simp [Thing.call_action, hm, htl, hvalid, hnp, filter_args, del_key]
  | true =>
    simp [Thing.call_action, hm, htl, hvalid, hnp, filter_args, del_key]

/-- Witness for C1 on a concrete single-action `Thing`. -/
theorem c1_setcolor_dispatch_witness :
    Thing.call_action ["setColor"]
        ⟨"t1", "light", "thing", [],
          [Action.init "setColor" [("color", PropertyType.COLOR)]], []⟩
        "setColor" [("color", Value.str "00FF00"), ("extra", Value.int 1)] =
      ⟨[("color", Value.str "00FF00")],
        [Event.invoke "setColor" [("color", Value.str "00FF00")],
          Event.logInfo "setColor" [("color", Value.str "00FF00")]],
        Option.none⟩ :=
  c1_setcolor_dispatch ["setColor"] _
    (Action.init "setColor" [("color", PropertyType.COLOR)])
    (by decide) (by decide) (by decide)

/-- C10: for every resolvable call, `call_action` deletes from the caller's
own `args` dict every key outside the accepted-argument-name set, in place;
after the call the dict holds exactly its accepted entries, values
untouched. -/
theorem c10_call_action_filters_caller_args :
    ∀ (impls : List String) (t : Thing) (method : String)
      (args : List (String × Value)) (a : Action),
      method ∈ impls →
      t.actions.find? (fun a0 => a0.name == method) = some a →
      (Thing.call_action impls t method args).error = Option.none ∧
      (Thing.call_action impls t method args).argsAfter =
        args.filter fun kv => decide (kv.1 ∈ valid_arg_names a) := by
  intro impls t method args a hm hfind
  obtain ⟨tl, htl⟩ :=
    filter_cons_of_found (fun a0 => a0.name == method) t.actions a hfind
  constructor <;> simp [Thing.call_action, hm, htl, filter_args_snapshot]

/-- Witness for C10 on a concrete `Thing` and argument dict. -/
theorem c10_call_action_filters_caller_args_witness :
    (Thing.call_action ["setColor"]
        ⟨"t1", "light", "thing", [],
          [Action.init "setColor" [("color", PropertyType.COLOR)]], []⟩
        "setColor" [("color", Value.str "00FF00"), ("extra", Value.int 1)]).error =
      Option.none ∧
    (Thing.call_action ["setColor"]
        ⟨"t1", "light", "thing", [],
          [Action.init "setColor" [("color", PropertyType.COLOR)]], []⟩
        "setColor" [("color", Value.str "00FF00"), ("extra", Value.int 1)]).argsAfter =
      [("color", Value.str "00FF00"), ("extra", Value.int 1)].filter
        fun kv => decide (kv.1 ∈
          valid_arg_names (Action.init "setColor" [("color", PropertyType.COLOR)])) :=
  c10_call_action_filters_caller_args ["setColor"] _ "setColor" _ _
    (by decide) (by decide)

end CiscoDeviot
